import Mathlib

/-!
Verification of `custom_components/eltako/select.py` (climate controller
priority select platform), shallowly embedded in Lean 4.

The module under verification is glue around an externally owned enum
(`A5_10_06.ControllerPriority` from the `eltakobus` protocol library).
We model the external library surface as explicit parameters:

* `A5_10_06_Module` carries the two probed attribute slots for the enum
  type (either may be absent);
* `PrioEnum` is the enum type itself: an ordered list of members plus an
  optional `find_by_description` capability whose calls may raise;
* `PrioMember` is one enum member, with the attributes the code probes
  (`description`, `label`, `name`, `value`).

Python values that can appear as an enum member's `value` are modelled by
`PyVal` (ints, strings, flat tuples of scalars), with `pyStr` modelling
Python's `str()` (string escaping inside tuple reprs is elided).

Fallible external calls are modelled with explicit result types
(`FindRes`, `Except`); host-side effects (bus events, UI refresh,
logging) are modelled as explicit outputs of the handlers.
-/

namespace EltakoSelect

/-- A scalar Python value that can occur inside an enum value tuple. -/
inductive PyScalar where
  | sint (n : Int)
  | sstr (s : String)
deriving DecidableEq, Repr

/-- A Python value that can occur as an enum member's `value` attribute:
an int, a string, or a flat tuple of scalars. -/
inductive PyVal where
  | vint (n : Int)
  | vstr (s : String)
  | vtuple (xs : List PyScalar)
deriving DecidableEq, Repr

/-- The single-quote character, used by Python `repr` of strings. -/
def squote : String := String.singleton (Char.ofNat 39)

/-- Python `repr` of a scalar (string escaping elided). -/
def reprScalar : PyScalar → String
  | PyScalar.sint n => toString n
  | PyScalar.sstr s => squote ++ s ++ squote

/-- Python `str()` of a `PyVal`: ints print decimally, strings print
themselves, tuples print as `(r1, r2, ...)` with `repr` of the elements
and the trailing comma of 1-tuples. -/
def pyStr : PyVal → String
  | PyVal.vint n => toString n
  | PyVal.vstr s => s
  | PyVal.vtuple xs =>
      "(" ++ String.intercalate ", " (xs.map reprScalar)
          ++ (if xs.length == 1 then ",)" else ")")

/-- Python `str()` of an optional string, as used for `str(dev_id)` in the
setup routine's except branch: `str(None)` is the string `"None"`. -/
def pyStrOfOptionStr : Option String → String
  | none => "None"
  | some s => s

/-- One member of the controller-priority enum, with the attributes the
code probes.  `description` and `label` are `none` when the attribute is
absent; Python enum members always carry `name` and `value`. -/
structure PrioMember where
  description : Option String
  label : Option String
  name : String
  value : PyVal
deriving DecidableEq, Repr

/-- Result of calling the library's `find_by_description`: it may raise
(`exn`), or return a member or `None` (`ret`). -/
inductive FindRes where
  | exn (msg : String)
  | ret (r : Option PrioMember)

/-- The controller-priority enum type: its ordered member list, whether it
exposes `find_by_description` (`hasattr` probe), and the behaviour of that
method when present. -/
structure PrioEnum where
  members : List PrioMember
  hasFindByDescription : Bool
  findByDescription : String → FindRes

/-- The state of the `A5_10_06` class of the external library: the two
attribute slots probed for the controller-priority enum type, either of
which may be absent. -/
structure A5_10_06_Module where
  controllerPriority : Option PrioEnum
  controller_Priority : Option PrioEnum

/-- Embeds `_get_controller_priority_enum`:
`getattr(A5_10_06, "ControllerPriority", getattr(A5_10_06, "Controller_Priority", None))`. -/
def _get_controller_priority_enum (m : A5_10_06_Module) : Option PrioEnum :=
  match m.controllerPriority with
  | some e => some e
  | none => m.controller_Priority

/-- Truthiness of an optional string in Python: absent and empty strings
are falsy. -/
def strTruthy : Option String → Bool
  | none => false
  | some s => !(s == "")

/-- Python `a or b` on optional strings: `a` when truthy, else `b`. -/
def pyOrStr (a b : Option String) : Option String :=
  if strTruthy a then a else b

/-- Embeds `_priority_to_option(priority)`: display string of a member,
preferring a truthy `description` or `label`, then the string-typed last
element of a tuple `value`, then `name or str(value)`. -/
def _priority_to_option : Option PrioMember → Option String
  | none => none
  | some p =>
    let desc := pyOrStr p.description p.label
    if strTruthy desc then desc
    else
      match p.value with
      | PyVal.vtuple xs =>
        match xs.getLast? with
        | some (PyScalar.sstr s) => some s
        | _ => if p.name == "" then some (pyStr p.value) else some p.name
      | _ => if p.name == "" then some (pyStr p.value) else some p.name

/-- The per-member test of the linear scan in `_priority_from_option`:
`option == _priority_to_option(prio) or option == getattr(prio, "name", None)
or option == str(getattr(prio, "value", None))`. -/
def scanMatch (option : String) (prio : PrioMember) : Bool :=
  _priority_to_option (some prio) == some option
    || prio.name == option
    || pyStr prio.value == option

/-- Embeds `_priority_from_option(option)`: `None` when the enum type or
the option is absent; else try `find_by_description` when present
(exceptions and `None` results fall through), else the first member
matched by the linear scan. -/
def _priority_from_option (m : A5_10_06_Module) (option : Option String) :
    Option PrioMember :=
  match _get_controller_priority_enum m with
  | none => none
  | some enum =>
    match option with
    | none => none
    | some opt =>
      let fromFind : Option PrioMember :=
        if enum.hasFindByDescription then
          match enum.findByDescription opt with
          | FindRes.exn _ => none
          | FindRes.ret (some found) => some found
          | FindRes.ret none => none
        else none
      match fromFind with
      | some f => some f
      | none => enum.members.find? (scanMatch opt)

/-- `_priority_from_option` re-embedded with the one fallible external
call (`enum.find_by_description`) made explicit in `Except`: the source's
`try ... except Exception: pass` catches the raise and falls through to
the linear scan, so no error escapes. -/
def _priority_from_optionE (m : A5_10_06_Module) (option : Option String) :
    Except String (Option PrioMember) :=
  match _get_controller_priority_enum m with
  | none => Except.ok none
  | some enum =>
    match option with
    | none => Except.ok none
    | some opt =>
      let fromFind : Option PrioMember :=
        if enum.hasFindByDescription then
          match enum.findByDescription opt with
          | FindRes.exn _ => none
          | FindRes.ret (some found) => some found
          | FindRes.ret none => none
        else none
      match fromFind with
      | some f => Except.ok (some f)
      | none => Except.ok (enum.members.find? (scanMatch opt))

/-- Embeds `_priority_options()`: the display strings of all members, in
enum order; empty when the enum type is absent. -/
def _priority_options (m : A5_10_06_Module) : List (Option String) :=
  match _get_controller_priority_enum m with
  | none => []
  | some e => e.members.map (fun p => _priority_to_option (some p))

/-- Attribute access `enum.AUTO` / `hasattr(enum, "AUTO")` on a Python
enum class resolves to the member of that name when one exists. -/
def enumGetAUTO (e : PrioEnum) : Option PrioMember :=
  e.members.find? (fun p => p.name == "AUTO")

/-- Embeds `_default_priority_option()`: the display string of the `AUTO`
member when present, else the first entry of `_priority_options()` when
non-empty, else `None`. -/
def _default_priority_option (m : A5_10_06_Module) : Option String :=
  match _get_controller_priority_enum m with
  | none => none
  | some e =>
    match enumGetAUTO e with
    | some a => _priority_to_option (some a)
    | none =>
      match _priority_options m with
      | [] => none
      | o :: _ => o

/-- Modelled from the spec: `Platform.CLIMATE` (host framework constant,
not under `src/`) — the climate platform key of the config mapping. -/
def climatePlatform : String := "climate"

/-- Modelled from the spec: `EVENT_CLIMATE_PRIORITY_SELECTED` lives in the
integration's `const` module, which is not under `src/`; the spec calls it
a fixed "climate priority selected" event kind. -/
def EVENT_CLIMATE_PRIORITY_SELECTED : String := "climate_priority_selected"

/-- Modelled from the spec: `config_helpers.get_bus_event_type` is not
under `src/`; the spec describes the bus topic as composed from the
gateway base id, the fixed event kind, and the device id. -/
def get_bus_event_type (baseId eventKind devId : String) : String :=
  baseId ++ "." ++ eventKind ++ "." ++ devId

/-- The gateway, reduced to the one attribute the module reads. -/
structure EnOceanGateway where
  base_id : String
deriving DecidableEq, Repr

/-- Modelled from the spec: `DeviceConf` (from `config_helpers`, not under
`src/`) yields at least `id`, `name`, `eep` per device record; the device
id (an address expression) and EEP are modelled as strings. -/
structure DeviceConf where
  id : String
  name : String
  eep : String
deriving DecidableEq, Repr

/-- An event fired on the host bus: the composed event type and the
`{"priority": ...}` payload. -/
structure BusEvent where
  event_type : String
  priority : Option String
deriving DecidableEq, Repr

/-- The state of a `ClimatePriority` entity: identity fields set by
construction plus the mutable `_attr_options` / `_attr_current_option`. -/
structure ClimatePriority where
  ha_platform : String
  dev_id : String
  dev_name : String
  dev_eep : String
  name : String
  event_id : String
  attr_options : List (Option String)
  attr_current_option : Option String
deriving DecidableEq, Repr

/-- Embeds `ClimatePriority.__init__`: sets the display name, composes the
bus event id, computes the option list and the default current option,
and falls back to the first option when the default is `None` but options
exist. -/
def mkClimatePriority (m : A5_10_06_Module) (gateway : EnOceanGateway)
    (platform : String) (dev_id dev_name dev_eep : String) : ClimatePriority :=
  let opts := _priority_options m
  let cur0 := _default_priority_option m
  let cur := if cur0 = none ∧ opts.length > 0 then opts.headD none else cur0
  { ha_platform := platform
    dev_id := dev_id
    dev_name := dev_name
    dev_eep := dev_eep
    name := "Priority"
    event_id := get_bus_event_type gateway.base_id EVENT_CLIMATE_PRIORITY_SELECTED dev_id
    attr_options := opts
    attr_current_option := cur }

/-- A log line produced by the setup routine (debug logging elided; the
claims concern the warning and critical lines). -/
inductive LogEntry where
  | warnNoPriorities (platform : String) (devId : String)
  | warnCouldNotLoad (platform : String) (devIdStr : String)
  | criticalTrace (msg : String)
deriving DecidableEq, Repr

/-- The body of one iteration of the setup loop over
`config[platform]`: a config record either parses to a `DeviceConf` or
raises (`Except.error`).  On a raise, `dev_config` is still `None`, so the
warning is logged with `str(getattr(None, "id", None))`, i.e. `"None"`,
followed by the critical trace.  On a parse, creation is skipped with a
warning when no priority options are available, else an entity is built. -/
def setupStep (m : A5_10_06_Module) (gateway : EnOceanGateway)
    (cfg : Except String DeviceConf) : Option ClimatePriority × List LogEntry :=
  match cfg with
  | Except.error msg =>
      (none, [LogEntry.warnCouldNotLoad climatePlatform (pyStrOfOptionStr none),
              LogEntry.criticalTrace msg])
  | Except.ok dc =>
      if (_priority_options m).length == 0 then
        (none, [LogEntry.warnNoPriorities climatePlatform dc.id])
      else
        (some (mkClimatePriority m gateway climatePlatform dc.id dc.name dc.eep), [])

/-- The setup loop over the configured climate device records, in order. -/
def setupLoop (m : A5_10_06_Module) (gateway : EnOceanGateway) :
    List (Except String DeviceConf) → List ClimatePriority × List LogEntry
  | [] => ([], [])
  | cfg :: rest =>
      let step := setupStep m gateway cfg
      let tail := setupLoop m gateway rest
      (step.1.toList ++ tail.1, step.2 ++ tail.2)

/-- The outcome of `async_setup_entry`: the entities handed to
`async_add_entities` and the log lines emitted. -/
structure SetupResult where
  entities : List ClimatePriority
  log : List LogEntry
deriving DecidableEq, Repr

/-- Embeds `async_setup_entry`: when the climate platform key is present
in the config, run the per-device loop; then hand the collected entities
to the host.  `validate_actuators_dev_and_sender_id` and
`log_entities_to_be_added` live in modules not under `src/`; per the spec
their semantics are owned externally and they are modelled as
pass-throughs. -/
def async_setup_entry (m : A5_10_06_Module) (gateway : EnOceanGateway)
    (config : Option (List (Except String DeviceConf))) : SetupResult :=
  match config with
  | none => { entities := [], log := [] }
  | some cfgs =>
      let r := setupLoop m gateway cfgs
      { entities := r.1, log := r.2 }

/-- The persisted host state handed to `load_value_initially`; its
`state` attribute is the last known option string (or absent). -/
structure HAState where
  state : Option String
deriving DecidableEq, Repr

/-- The outcome of `load_value_initially`: the updated entity, the bus
events fired, the exception propagated to the caller (when any), and
whether a UI refresh was scheduled. -/
structure LoadResult where
  entity : ClimatePriority
  events : List BusEvent
  raised : Option String
  refreshed : Bool
deriving DecidableEq, Repr

/-- Embeds `ClimatePriority.load_value_initially`.  `fault` models an
exception raised at any point inside the `try` block (the two assignments
themselves cannot fail in this model, but the source guards them): the
`except` handler assigns the computed default and re-raises, so the bus
fire and UI refresh after the `try` are skipped.  Without a fault, the
persisted state is adopted unless it is `None` or `"unknown"`, in which
case the default is adopted; then one bus event carrying the resulting
option is fired and a refresh is scheduled. -/
def load_value_initially (m : A5_10_06_Module) (e : ClimatePriority)
    (latest_state : HAState) (fault : Option String) : LoadResult :=
  match fault with
  | some msg =>
      { entity := { e with attr_current_option := _default_priority_option m }
        events := []
        raised := some msg
        refreshed := false }
  | none =>
      let cur0 := latest_state.state
      let cur := if cur0 = none ∨ cur0 = some "unknown"
                 then _default_priority_option m else cur0
      let e' := { e with attr_current_option := cur }
      { entity := e'
        events := [{ event_type := e.event_id, priority := cur }]
        raised := none
        refreshed := true }

/-- The outcome of `async_select_option`: the updated entity, the bus
events fired, and whether a UI refresh was scheduled. -/
structure SelectResult where
  entity : ClimatePriority
  events : List BusEvent
  refreshed : Bool
deriving DecidableEq, Repr

/-- Embeds `ClimatePriority.async_select_option`: fire one bus event with
the chosen option as the `"priority"` payload, set the current option to
that string unconditionally, and schedule a refresh. -/
def async_select_option (e : ClimatePriority) (option : String) : SelectResult :=
  { entity := { e with attr_current_option := some option }
    events := [{ event_type := e.event_id, priority := some option }]
    refreshed := true }

/-! ### Concrete fixtures used by witnesses and counterexamples -/

/-- A concrete enum member named `AUTO` with display string `"Auto"`. -/
def autoMember : PrioMember :=
  { description := some "Auto", label := none, name := "AUTO", value := PyVal.vint 0 }

/-- A concrete enum member named `MANUAL` with display string `"Manual"`. -/
def manualMember : PrioMember :=
  { description := some "Manual", label := none, name := "MANUAL", value := PyVal.vint 1 }

/-- A concrete two-member controller-priority enum without
`find_by_description`. -/
def witEnum : PrioEnum :=
  { members := [autoMember, manualMember]
    hasFindByDescription := false
    findByDescription := fun _ => FindRes.ret none }

/-- A library state exposing `witEnum` under the first probed name. -/
def witModule : A5_10_06_Module :=
  { controllerPriority := some witEnum, controller_Priority := none }

/-- A library state where both probed attribute names are absent. -/
def emptyModule : A5_10_06_Module :=
  { controllerPriority := none, controller_Priority := none }

/-- A concrete gateway. -/
def witGateway : EnOceanGateway := { base_id := "FF-AA-80-00" }

/-- A concrete device configuration. -/
def witDevice : DeviceConf :=
  { id := "00-00-00-01", name := "Thermostat", eep := "A5-10-06" }

/-- A second concrete device configuration with a distinct id. -/
def witDevice2 : DeviceConf :=
  { id := "00-00-00-03", name := "Thermostat 2", eep := "A5-10-06" }

/-- The entity built for `witDevice` over `witModule`. -/
def witEntity : ClimatePriority :=
  mkClimatePriority witModule witGateway climatePlatform
    witDevice.id witDevice.name witDevice.eep

/-! ### Helper lemmas -/

/-- A truthy optional string is present. -/
theorem strTruthy_isSome (o : Option String) (h : strTruthy o = true) :
    o.isSome = true := by
  cases o with
  | none => simp [strTruthy] at h
  | some s => rfl

/-- The display-string translation always yields a string on an actual
member: every branch of `_priority_to_option` returns one. -/
theorem _priority_to_option_isSome (p : PrioMember) :
    (_priority_to_option (some p)).isSome = true := by
  unfold _priority_to_option
  dsimp only
  split
  · exact strTruthy_isSome _ (by assumption)
  · split
    · split
      · rfl
      · split <;> rfl
    · split <;> rfl

/-- `List.find?` returns the unique element satisfying the test. -/
theorem find?_eq_of_unique {α : Type} (l : List α) (p : α → Bool) (a : α)
    (ha : a ∈ l) (hp : p a = true) (hu : ∀ x ∈ l, p x = true → x = a) :
    l.find? p = some a := by
  induction l with
  | nil => cases ha
  | cons b t ih =>
    by_cases hb : p b = true
    · have hba : b = a := hu b (List.mem_cons_self b t) hb
      rw [List.find?_cons_of_pos _ hb, hba]
    · have hb' : p b = false := by simpa using hb
      rw [List.find?_cons_of_neg _ (by simp [hb'])]
      rcases List.mem_cons.mp ha with h | h
      · subst h; exact absurd hp hb
      · exact ih h (fun x hx hpx => hu x (List.mem_cons_of_mem _ hx) hpx)

/-- Every entry of `_priority_options` is a present string. -/
theorem _priority_options_mem_isSome (m : A5_10_06_Module) (o : Option String)
    (ho : o ∈ _priority_options m) : o.isSome = true := by
  unfold _priority_options at ho
  cases h : _get_controller_priority_enum m with
  | none => rw [h] at ho; cases ho
  | some e =>
    rw [h] at ho
    rcases List.mem_map.mp ho with ⟨p, _, hpo⟩
    exact hpo ▸ _priority_to_option_isSome p

/-- The constructor leaves a present current option whenever the option
list is non-empty. -/
theorem mk_current_ne_none (m : A5_10_06_Module) (g : EnOceanGateway)
    (pf di dn de : String) (h : _priority_options m ≠ []) :
    (mkClimatePriority m g pf di dn de).attr_current_option ≠ none := by
  unfold mkClimatePriority
  dsimp only
  by_cases hc : _default_priority_option m = none
  · have hl : (_priority_options m).length > 0 := List.length_pos.mpr h
    rw [if_pos ⟨hc, hl⟩]
    cases ho : _priority_options m with
    | nil => exact absurd ho h
    | cons o os =>
      have hs : o.isSome = true :=
        _priority_options_mem_isSome m o (ho ▸ List.mem_cons_self o os)
      cases o with
      | none => simp at hs
      | some s => simp [ho]
  · rw [if_neg (fun hh => hc hh.1)]
    exact hc

/-- Every entity collected by the setup loop has a present current
option: entities are only built behind the non-empty-options guard. -/
theorem setupLoop_current_ne_none (m : A5_10_06_Module) (g : EnOceanGateway)
    (cfgs : List (Except String DeviceConf)) (ent : ClimatePriority)
    (h : ent ∈ (setupLoop m g cfgs).1) : ent.attr_current_option ≠ none := by
  induction cfgs with
  | nil => cases h
  | cons c t ih =>
    unfold setupLoop at h
    rcases List.mem_append.mp h with h1 | h2
    · cases c with
      | error msg => unfold setupStep at h1; simp at h1
      | ok dc =>
        unfold setupStep at h1
        dsimp only at h1
        by_cases hz : ((_priority_options m).length == 0) = true
        · rw [if_pos hz] at h1; simp at h1
        · rw [if_neg hz] at h1
          simp only [Option.toList_some, List.mem_singleton] at h1
          subst h1
          have hne : _priority_options m ≠ [] := by
            intro hnil
            exact hz (by simp [hnil])
          exact mk_current_ne_none m g climatePlatform dc.id dc.name dc.eep hne
    · exact ih h2

/-! ### Claims -/

/-- C1: for every member of the controller-priority enum, translating the
member to its display string with `_priority_to_option` and parsing that
string back with `_priority_from_option` yields the same member.  The
enum itself is owned by the external protocol library; the hypotheses
`hfind`/`hscan` encode the spec's data-model invariant that each member
maps to exactly one display string, usable to parse the selection back:
the library lookup-by-description only ever answers that member on its
display string, and no other member matches the scan criteria for it. -/
theorem priority_option_roundtrip
    (m : A5_10_06_Module) (e : PrioEnum) (p : PrioMember) (o : String)
    (henum : _get_controller_priority_enum m = some e)
    (hmem : p ∈ e.members)
    (ho : _priority_to_option (some p) = some o)
    (hfind : ∀ f, e.findByDescription o = FindRes.ret (some f) → f = p)
    (hscan : ∀ q ∈ e.members, scanMatch o q = true → q = p) :
    _priority_from_option m (_priority_to_option (some p)) = some p := by
  rw [ho]
  unfold _priority_from_option
  rw [henum]
  have hpm : scanMatch o p = true := by
    unfold scanMatch
    simp [ho]
  have hfound : e.members.find? (scanMatch o) = some p :=
    find?_eq_of_unique _ _ _ hmem hpm hscan
  cases hf : e.hasFindByDescription with
  | false => simp [hf, hfound]
  | true =>
    cases hr : e.findByDescription o with
    | exn msg => simp [hf, hr, hfound]
    | ret r =>
      cases r with
      | none => simp [hf, hr, hfound]
      | some f => simp [hf, hr, hfind f hr]

/-- Witness for C1 at a concrete two-member enum. -/
theorem priority_option_roundtrip_witness :
    _priority_from_option witModule (_priority_to_option (some autoMember))
      = some autoMember :=
  priority_option_roundtrip witModule witEnum autoMember "Auto" rfl
    (by decide) (by decide)
    (fun f hf => by simp [witEnum] at hf)
    (by decide)

/-- C2: whenever an exception is raised inside the `try` block of
`load_value_initially`, the current option is set to the computed default
and the same exception is re-raised to the caller: the error is not
swallowed, and the entity is not left without the safe default value. -/
theorem load_fault_sets_default_then_reraises
    (m : A5_10_06_Module) (e : ClimatePriority) (st : HAState) (msg : String) :
    (load_value_initially m e st (some msg)).entity.attr_current_option
        = _default_priority_option m
      ∧ (load_value_initially m e st (some msg)).raised = some msg :=
  ⟨rfl, rfl⟩

/-- C3: `async_select_option` accepts any string, advertised or not: it
sets the current option to exactly that string and fires exactly one bus
event on the entity's event id with the string as the `"priority"`
payload. -/
theorem select_option_accepts_any_string (e : ClimatePriority) (option : String) :
    (async_select_option e option).entity.attr_current_option = some option
      ∧ (async_select_option e option).events
          = [{ event_type := e.event_id, priority := some option }] :=
  ⟨rfl, rfl⟩

/-- C4: restoring from a persisted state that is `None` or the sentinel
`"unknown"` adopts the computed default option and fires exactly one bus
event carrying that default as the `"priority"` payload. -/
theorem load_unknown_falls_back_to_default
    (m : A5_10_06_Module) (e : ClimatePriority) (st : HAState)
    (h : st.state = none ∨ st.state = some "unknown") :
    (load_value_initially m e st none).entity.attr_current_option
        = _default_priority_option m
      ∧ (load_value_initially m e st none).events
          = [{ event_type := e.event_id,
               priority := _default_priority_option m }] := by
  unfold load_value_initially
  dsimp only
  rw [if_pos h]
  exact ⟨rfl, rfl⟩

/-- Witness for C4 at a concrete entity and the `"unknown"` sentinel. -/
theorem load_unknown_falls_back_to_default_witness :
    (load_value_initially witModule witEntity { state := some "unknown" }
        none).entity.attr_current_option
        = _default_priority_option witModule
      ∧ (load_value_initially witModule witEntity { state := some "unknown" }
          none).events
          = [{ event_type := witEntity.event_id,
               priority := _default_priority_option witModule }] :=
  load_unknown_falls_back_to_default witModule witEntity
    { state := some "unknown" } (Or.inr rfl)

/-- C5: a config record that raises while parsing is caught and skipped:
for three configured devices where the second raises, exactly the
entities for the first and third devices are produced and handed to the
host platform. -/
theorem setup_skips_failing_device
    (m : A5_10_06_Module) (g : EnOceanGateway) (d1 d3 : DeviceConf)
    (msg : String) (h : (_priority_options m).length ≠ 0) :
    (async_setup_entry m g
        (some [Except.ok d1, Except.error msg, Except.ok d3])).entities
      = [mkClimatePriority m g climatePlatform d1.id d1.name d1.eep,
         mkClimatePriority m g climatePlatform d3.id d3.name d3.eep] := by
  have hb : ((_priority_options m).length == 0) = false := by
    simpa using h
  simp [async_setup_entry, setupLoop, setupStep, hb]

/-- Witness for C5 at a concrete three-record config. -/
theorem setup_skips_failing_device_witness :
    (async_setup_entry witModule witGateway
        (some [Except.ok witDevice, Except.error "bad config",
               Except.ok witDevice2])).entities
      = [mkClimatePriority witModule witGateway climatePlatform
           witDevice.id witDevice.name witDevice.eep,
         mkClimatePriority witModule witGateway climatePlatform
           witDevice2.id witDevice2.name witDevice2.eep] :=
  setup_skips_failing_device witModule witGateway witDevice witDevice2
    "bad config" (by decide)

/-- C6: the enum-translation helpers never propagate an exception.  The
one fallible external call they make, `enum.find_by_description`, is
guarded by `try ... except Exception: pass` in `_priority_from_option`;
re-embedding that function with the call's failure explicit in `Except`
shows it always returns `ok` of the pure result, even when the lookup
raises.  The remaining helpers (`_get_controller_priority_enum`,
`_priority_to_option`, `_priority_options`, `_default_priority_option`)
perform only non-raising operations (`getattr` with a default, `hasattr`,
iteration, `isinstance`, `str`), which is why their embeddings are plain
total functions signalling absence by `none` or `[]`. -/
theorem priority_helpers_never_raise
    (m : A5_10_06_Module) (option : Option String) :
    _priority_from_optionE m option
      = Except.ok (_priority_from_option m option) := by
  unfold _priority_from_optionE _priority_from_option
  cases _get_controller_priority_enum m with
  | none => rfl
  | some e =>
    cases option with
    | none => rfl
    | some o =>
      cases he : e.hasFindByDescription with
      | false => simp [he]
      | true =>
        cases hr : e.findByDescription o with
        | exn msg => simp [he, hr]
        | ret r => cases r <;> simp [he, hr]

/-- C7: when neither probed attribute name yields the enum type,
`_priority_options` is empty, `_default_priority_option` is `None`, and
`_priority_from_option` is `None` on every option string. -/
theorem missing_enum_yields_nothing
    (m : A5_10_06_Module) (h : _get_controller_priority_enum m = none) :
    _priority_options m = []
      ∧ _default_priority_option m = none
      ∧ ∀ opt : String, _priority_from_option m (some opt) = none := by
  refine ⟨?_, ?_, ?_⟩
  · unfold _priority_options
    rw [h]
  · unfold _default_priority_option
    rw [h]
  · intro opt
    unfold _priority_from_option
    rw [h]

/-- Witness for C7 at the library state with both attributes absent. -/
theorem missing_enum_yields_nothing_witness :
    _priority_options emptyModule = []
      ∧ _default_priority_option emptyModule = none
      ∧ _priority_from_option emptyModule (some "Auto") = none :=
  ⟨(missing_enum_yields_nothing emptyModule rfl).1,
   (missing_enum_yields_nothing emptyModule rfl).2.1,
   (missing_enum_yields_nothing emptyModule rfl).2.2 "Auto"⟩

/-- C8: `_default_priority_option` returns the `AUTO` member's display
string when such a member exists; otherwise the first entry of
`_priority_options` when that list is non-empty, and `None` when it is
empty. -/
theorem default_priority_option_spec
    (m : A5_10_06_Module) (e : PrioEnum)
    (henum : _get_controller_priority_enum m = some e) :
    (∀ a, enumGetAUTO e = some a
        → _default_priority_option m = _priority_to_option (some a))
      ∧ (enumGetAUTO e = none →
          (∀ o os, _priority_options m = o :: os
              → _default_priority_option m = o)
          ∧ (_priority_options m = [] → _default_priority_option m = none)) := by
  constructor
  · intro a ha
    unfold _default_priority_option
    rw [henum]
    dsimp only
    rw [ha]
  · intro hno
    constructor
    · intro o os hoo
      unfold _default_priority_option
      rw [henum]
      dsimp only
      rw [hno, hoo]
    · intro hnil
      unfold _default_priority_option
      rw [henum]
      dsimp only
      rw [hno, hnil]

/-- Witness for C8 at the concrete enum, whose `AUTO` member exists. -/
theorem default_priority_option_spec_witness :
    _default_priority_option witModule = _priority_to_option (some autoMember) :=
  (default_priority_option_spec witModule witEnum rfl).1 autoMember (by decide)

/-- Counterexample for C9: when parsing a device's config raises, the
local `dev_config` is still `None`, so the warning is logged with
`str(None)`, i.e. the string `"None"` — not `"unknown"` as claimed. -/
theorem setup_warning_id_counterexample :
    (async_setup_entry witModule witGateway
        (some [Except.error "boom"])).log
      = [LogEntry.warnCouldNotLoad climatePlatform "None",
         LogEntry.criticalTrace "boom"]
      ∧ "None" ≠ "unknown" := by
  constructor
  · rfl
  · decide

/-- C9 (amended): when an exception prevents determining the offending
device's id, the warning names the id as `"None"` (Python's string form
of `None`), and a full trace is logged at critical level. -/
theorem setup_warning_names_None
    (m : A5_10_06_Module) (g : EnOceanGateway) (msg : String) :
    setupStep m g (Except.error msg)
      = (none, [LogEntry.warnCouldNotLoad climatePlatform "None",
                LogEntry.criticalTrace msg]) :=
  rfl

/-- C10: the constructor's fallback gives every entity with a non-empty
option list a present current option, and — since setup only builds
entities behind the non-empty-options guard — every entity the setup
routine hands to the host starts with a present current option. -/
theorem setup_entities_have_current_option :
    (∀ (m : A5_10_06_Module) (g : EnOceanGateway) (pf di dn de : String),
        (mkClimatePriority m g pf di dn de).attr_options ≠ []
        → (mkClimatePriority m g pf di dn de).attr_current_option ≠ none)
      ∧ ∀ (m : A5_10_06_Module) (g : EnOceanGateway)
          (config : Option (List (Except String DeviceConf)))
          (ent : ClimatePriority),
          ent ∈ (async_setup_entry m g config).entities
          → ent.attr_current_option ≠ none := by
  constructor
  · intro m g pf di dn de hopts
    exact mk_current_ne_none m g pf di dn de hopts
  · intro m g config ent hmem
    cases config with
    | none => cases hmem
    | some cfgs => exact setupLoop_current_ne_none m g cfgs ent hmem

/-- Witness for C10 at the concrete setup of one device. -/
theorem setup_entities_have_current_option_witness :
    (mkClimatePriority witModule witGateway climatePlatform
        witDevice.id witDevice.name witDevice.eep).attr_current_option ≠ none
      ∧ witEntity.attr_current_option ≠ none :=
  ⟨setup_entities_have_current_option.1 witModule witGateway climatePlatform
      witDevice.id witDevice.name witDevice.eep (by decide),
   setup_entities_have_current_option.2 witModule witGateway
      (some [Except.ok witDevice]) witEntity (by decide)⟩

end EltakoSelect
